import Mathlib

/-!
# Verification of the Bone Tracer export core

Shallow embedding of `BONE_TRACER_OT_export.execute` from
`250713_MICKMUMPITZ_BLENDER_BONE_TRACER_v24.py`.

Real-valued host quantities (positions, camera coordinates) are modelled
over `ℚ`; the Python `int(...)` cast on the projection result is modelled
as truncation toward zero (`Int.tdiv` of numerator by denominator).
The host scene collaborator (Blender) is modelled as data: per-frame
evaluation of bone heads/tails, object world matrices and the
`world_to_camera_view` mapping are functions of the frame number, which
is how the source observes them (it calls `frame_set(frame)` and then
reads the evaluated values).
-/

namespace BoneTracer

/-- A pixel coordinate `{x, y}` as written into the output file. -/
abbrev Pixel := Int × Int

/-- A 3-component vector (`mathutils.Vector`), modelled over `ℚ`. -/
structure Vec3 where
  x : ℚ
  y : ℚ
  z : ℚ

instance : Add Vec3 := ⟨fun a b => ⟨a.x + b.x, a.y + b.y, a.z + b.z⟩⟩

instance : HDiv Vec3 ℚ Vec3 := ⟨fun v c => ⟨v.x / c, v.y / c, v.z / c⟩⟩

/-- A world matrix (`obj.matrix_world`): affine transform, rows of the
linear part plus the translation column. -/
structure Mat4 where
  r0 : Vec3
  r1 : Vec3
  r2 : Vec3
  t : Vec3

def Vec3.dot (a b : Vec3) : ℚ := a.x * b.x + a.y * b.y + a.z * b.z

/-- `matrix_world @ v` (affine application, source line 164). -/
def Mat4.apply (m : Mat4) (v : Vec3) : Vec3 :=
  ⟨m.r0.dot v + m.t.x, m.r1.dot v + m.t.y, m.r2.dot v + m.t.z⟩

/-- `matrix_world.translation` (source line 188). -/
def Mat4.translation (m : Mat4) : Vec3 := m.t

/-- A pose bone: its selection flag (`bone.bone.select`) and its evaluated
head/tail positions as functions of the scene's current frame. -/
structure PoseBone where
  select : Bool
  head : Int → Vec3
  tail : Int → Vec3

/-- `obj.type` values distinguished by the source. -/
inductive ObjType
  | ARMATURE
  | EMPTY
  | OTHER
deriving DecidableEq

/-- A scene object: the fields of `bpy.types.Object` the export reads.
`pose_bones` models `armature.pose.bones` (meaningful for armatures);
`matrix_world` is the per-frame evaluated world matrix. -/
structure Obj where
  name : String
  type : ObjType
  pose_bones : List PoseBone
  matrix_world : Int → Mat4

/-- The scene camera together with the external collaborator
`world_to_camera_view(scene, camera, pos)`: per frame, a map from a world
position to the normalized camera-space vector whose `x`/`y` components
the source reads. -/
structure Camera where
  view : Int → Vec3 → Vec3

/-- The parts of `context.scene` / `context.selected_objects` the export
reads. -/
structure Scene where
  camera : Option Camera
  render_resolution_x : Int
  render_resolution_y : Int
  frame_start : Int
  frame_end : Int
  selected_objects : List Obj

/-- The `bone_point` enum property: `HEAD`, `TAIL` or `CENTER`. -/
inductive BonePointOpt
  | HEAD
  | TAIL
  | CENTER
deriving DecidableEq

/-- The operator's configuration (`BoneTracerProperties`). -/
structure BoneTracerProperties where
  resolution_x : Int
  resolution_y : Int
  use_render_resolution : Bool
  bone_point : BonePointOpt
  frame_start : Int
  frame_end : Int
  use_scene_frame_range : Bool

/-- The mutable host state the export touches: the scene's current frame,
the view layer's active object, and the editor mode (`context.mode`). -/
structure HostState where
  frame_current : Int
  active : Option Obj
  mode : String

/-- The operator's return value: `{'CANCELLED'}` together with the
reported error message, or `{'FINISHED'}`. -/
inductive OpResult
  | CANCELLED (msg : String)
  | FINISHED

/-- Result of one `execute` call: the returned status, the host state
after the call, and the trace set written to the output file (`none`
when no file was written). -/
structure ExecOut where
  result : OpResult
  state : HostState
  output : Option (List (List Pixel))

/-- Python `int(q)` on the (here: rational) multiply result: truncation
toward zero, i.e. T-division of the numerator by the denominator. -/
def pyInt (q : ℚ) : Int := q.num.tdiv (q.den : Int)

/-- Source lines 170-173 / 194-197: the pixel coordinate with top-left
origin computed from a normalized camera-space coordinate. -/
def projectPx (nx ny : ℚ) (res_x res_y : Int) : Pixel :=
  (pyInt (nx * (res_x : ℚ)), pyInt ((1 - ny) * (res_y : ℚ)))

/-- Effective resolution width (source lines 95-100). -/
def effResX (props : BoneTracerProperties) (scene : Scene) : Int :=
  if props.use_render_resolution then scene.render_resolution_x else props.resolution_x

/-- Effective resolution height (source lines 95-100). -/
def effResY (props : BoneTracerProperties) (scene : Scene) : Int :=
  if props.use_render_resolution then scene.render_resolution_y else props.resolution_y

/-- Effective first frame (source lines 103-108). -/
def effFrameStart (props : BoneTracerProperties) (scene : Scene) : Int :=
  if props.use_scene_frame_range then scene.frame_start else props.frame_start

/-- Effective last frame (source lines 103-108). -/
def effFrameEnd (props : BoneTracerProperties) (scene : Scene) : Int :=
  if props.use_scene_frame_range then scene.frame_end else props.frame_end

/-- Source line 112: selected objects of type `'ARMATURE'`, in selection
order. -/
def selectedArmatures (scene : Scene) : List Obj :=
  scene.selected_objects.filter (fun o => o.type == ObjType.ARMATURE)

/-- Source line 115: selected objects of type `'EMPTY'`, in selection
order. -/
def selectedEmpties (scene : Scene) : List Obj :=
  scene.selected_objects.filter (fun o => o.type == ObjType.EMPTY)

/-- Source lines 125-134 (collection part): for each selected armature in
order, its selected pose bones in armature order, paired with the
armature. -/
def selectedBonesWithArmature (scene : Scene) : List (PoseBone × Obj) :=
  (selectedArmatures scene).flatMap
    (fun armature => (armature.pose_bones.filter (fun b => b.select)).map (fun b => (b, armature)))

/-- Source lines 125-129 (state part): make each armature active in turn
and switch to pose mode when not already there. -/
def poseModeStep (s : HostState) (armature : Obj) : HostState :=
  let s1 := { s with active := some armature }
  if s1.mode ≠ "POSE" then { s1 with mode := "POSE" } else s1

/-- The armature loop's effect on host state (source lines 125-129). -/
def enterPoseMode (armatures : List Obj) (s : HostState) : HostState :=
  armatures.foldl poseModeStep s

/-- `range(frame_start, frame_end + 1)` (source lines 152, 184). -/
def frameRange (frame_start frame_end : Int) : List Int :=
  (List.range (frame_end + 1 - frame_start).toNat).map (fun i => frame_start + Int.ofNat i)

/-- Source lines 156-161: the bone-local point selected by `bone_point`,
evaluated at a frame. -/
def bonePos (opt : BonePointOpt) (bone : PoseBone) (frame : Int) : Vec3 :=
  match opt with
  | .HEAD => bone.head frame
  | .TAIL => bone.tail frame
  | .CENTER => (bone.head frame + bone.tail frame) / (2 : ℚ)

/-- Source lines 153-173: one sampled pixel for a bone at a frame. -/
def boneSample (camera : Camera) (opt : BonePointOpt) (bone : PoseBone) (armature : Obj)
    (res_x res_y : Int) (frame : Int) : Pixel :=
  let world_pos := (armature.matrix_world frame).apply (bonePos opt bone frame)
  let cam_pos := camera.view frame world_pos
  projectPx cam_pos.x cam_pos.y res_x res_y

/-- Source lines 185-197: one sampled pixel for an empty object at a
frame. -/
def emptySample (camera : Camera) (empty : Obj) (res_x res_y : Int) (frame : Int) : Pixel :=
  let world_pos := (empty.matrix_world frame).translation
  let cam_pos := camera.view frame world_pos
  projectPx cam_pos.x cam_pos.y res_x res_y

/-- The inner frame loop for one entity (source lines 152-175): each
iteration calls `frame_set(frame)` (mutating the current frame) and
appends the sampled pixel. -/
def traceOverFrames (sample : Int → Pixel) (frames : List Int) (s : HostState) :
    List Pixel × HostState :=
  frames.foldl
    (fun acc frame => (acc.1.concat (sample frame), { acc.2 with frame_current := frame }))
    ([], s)

/-- The outer entity loop (source lines 148-177 and 180-201): one trace
per entity, appended to the accumulated trace list, threading the host
state through the frame loops. -/
def traceEntities {α : Type} (sample : α → Int → Pixel) (entities : List α)
    (frames : List Int) (acc : List (List Pixel)) (s : HostState) :
    List (List Pixel) × HostState :=
  entities.foldl
    (fun st e =>
      let tr := traceOverFrames (sample e) frames st.2
      (st.1.concat tr.1, tr.2))
    (acc, s)

/-- `BONE_TRACER_OT_export.execute` (source lines 85-222). `fs_ok` models
whether the final file write succeeds (host filesystem behaviour). -/
def execute (props : BoneTracerProperties) (scene : Scene) (fs_ok : Bool)
    (s0 : HostState) : ExecOut :=
  match scene.camera with
  | none => ⟨.CANCELLED "No active camera found", s0, none⟩
  | some camera =>
    let res_x := effResX props scene
    let res_y := effResY props scene
    let frame_start := effFrameStart props scene
    let frame_end := effFrameEnd props scene
    if (selectedArmatures scene).isEmpty && (selectedEmpties scene).isEmpty then
      ⟨.CANCELLED "No armature or empty objects selected. Please select armature and/or empty objects.",
        s0, none⟩
    else
      let _original_mode := s0.mode
      let original_active := s0.active
      let s1 := enterPoseMode (selectedArmatures scene) s0
      if (selectedBonesWithArmature scene).isEmpty && (selectedEmpties scene).isEmpty then
        ⟨.CANCELLED "No bones selected and no empty objects selected. Please select bones in pose mode on armatures or select empty objects.",
          s1, none⟩
      else
        let current_frame := s1.frame_current
        let frames := frameRange frame_start frame_end
        let st1 := traceEntities
          (fun p => boneSample camera props.bone_point p.1 p.2 res_x res_y)
          (selectedBonesWithArmature scene) frames [] s1
        let st2 := traceEntities
          (fun e => emptySample camera e res_x res_y)
          (selectedEmpties scene) frames st1.1 st1.2
        let sFin := { st2.2 with frame_current := current_frame, active := original_active }
        if fs_ok then ⟨.FINISHED, sFin, some st2.1⟩
        else ⟨.CANCELLED "Failed to save file", sFin, none⟩

/-- Truncation toward zero, written independently of `pyInt`: floor for
nonnegative arguments, ceiling for negative ones. -/
def truncTowardZero (q : ℚ) : Int := if 0 ≤ q then ⌊q⌋ else ⌈q⌉

theorem pyInt_eq (q : ℚ) : pyInt q = if 0 ≤ q then ⌊q⌋ else ⌈q⌉ := by
  unfold pyInt
  by_cases h : 0 ≤ q
  · rw [if_pos h, Rat.floor_def]
    exact Int.tdiv_eq_ediv (Rat.num_nonneg.mpr h) (Int.ofNat_nonneg _)
  · rw [if_neg h]
    have hq : ¬(0 : Int) ≤ q.num := fun hc => h (Rat.num_nonneg.mp hc)
    have h1 : q.num.tdiv (q.den : Int) = -((-q.num).tdiv (q.den : Int)) := by
      rw [Int.neg_tdiv, neg_neg]
    rw [h1, Int.tdiv_eq_ediv (by omega) (Int.ofNat_nonneg _)]
    have h2 : -q.num = (-q).num := (Rat.num_neg_eq_neg_num q).symm
    have h3 : ((q.den : Int)) = (((-q).den : Int)) := by rw [Rat.den_neg_eq_den]
    rw [h2, h3, ← Rat.floor_def, Int.floor_neg, neg_neg]

theorem pyInt_intCast (n : Int) : pyInt (n : ℚ) = n := by
  unfold pyInt
  simp

theorem traceOverFrames_loop (sample : Int → Pixel) (frames : List Int) :
    ∀ (acc : List Pixel) (s : HostState),
      (frames.foldl
        (fun a frame => (a.1.concat (sample frame), { a.2 with frame_current := frame }))
        (acc, s)).1 = acc ++ frames.map sample := by
  induction frames with
  | nil => intro acc s; simp
  | cons f fs ih =>
    intro acc s
    simpa using ih (acc.concat (sample f)) { s with frame_current := f }

theorem traceOverFrames_fst (sample : Int → Pixel) (frames : List Int) (s : HostState) :
    (traceOverFrames sample frames s).1 = frames.map sample := by
  unfold traceOverFrames
  rw [traceOverFrames_loop]
  simp

theorem traceOverFrames_loop_state (sample : Int → Pixel) (frames : List Int) :
    ∀ (acc : List Pixel) (s : HostState),
      ((frames.foldl
        (fun a frame => (a.1.concat (sample frame), { a.2 with frame_current := frame }))
        (acc, s)).2.mode = s.mode ∧
       (frames.foldl
        (fun a frame => (a.1.concat (sample frame), { a.2 with frame_current := frame }))
        (acc, s)).2.active = s.active) := by
  induction frames with
  | nil => intro acc s; exact ⟨rfl, rfl⟩
  | cons f fs ih =>
    intro acc s
    exact ih (acc.concat (sample f)) { s with frame_current := f }

theorem traceOverFrames_mode (sample : Int → Pixel) (frames : List Int) (s : HostState) :
    (traceOverFrames sample frames s).2.mode = s.mode :=
  (traceOverFrames_loop_state sample frames [] s).1

theorem traceOverFrames_active (sample : Int → Pixel) (frames : List Int) (s : HostState) :
    (traceOverFrames sample frames s).2.active = s.active :=
  (traceOverFrames_loop_state sample frames [] s).2

theorem traceEntities_fst {α : Type} (sample : α → Int → Pixel) (frames : List Int) :
    ∀ (entities : List α) (acc : List (List Pixel)) (s : HostState),
      (traceEntities sample entities frames acc s).1
        = acc ++ entities.map (fun e => frames.map (sample e)) := by
  intro entities
  induction entities with
  | nil => intro acc s; simp [traceEntities]
  | cons e es ih =>
    intro acc s
    have h : traceEntities sample (e :: es) frames acc s
        = traceEntities sample es frames
            (acc.concat (traceOverFrames (sample e) frames s).1)
            (traceOverFrames (sample e) frames s).2 := rfl
    rw [h, ih, traceOverFrames_fst]
    simp

theorem traceEntities_mode {α : Type} (sample : α → Int → Pixel) (frames : List Int) :
    ∀ (entities : List α) (acc : List (List Pixel)) (s : HostState),
      (traceEntities sample entities frames acc s).2.mode = s.mode := by
  intro entities
  induction entities with
  | nil => intro acc s; rfl
  | cons e es ih =>
    intro acc s
    have h : traceEntities sample (e :: es) frames acc s
        = traceEntities sample es frames
            (acc.concat (traceOverFrames (sample e) frames s).1)
            (traceOverFrames (sample e) frames s).2 := rfl
    rw [h, ih, traceOverFrames_mode]

theorem traceEntities_active {α : Type} (sample : α → Int → Pixel) (frames : List Int) :
    ∀ (entities : List α) (acc : List (List Pixel)) (s : HostState),
      (traceEntities sample entities frames acc s).2.active = s.active := by
  intro entities
  induction entities with
  | nil => intro acc s; rfl
  | cons e es ih =>
    intro acc s
    have h : traceEntities sample (e :: es) frames acc s
        = traceEntities sample es frames
            (acc.concat (traceOverFrames (sample e) frames s).1)
            (traceOverFrames (sample e) frames s).2 := rfl
    rw [h, ih, traceOverFrames_active]

theorem poseModeStep_mode (s : HostState) (armature : Obj) :
    (poseModeStep s armature).mode = "POSE" := by
  unfold poseModeStep
  by_cases h : s.mode = "POSE" <;> simp [h]

theorem poseModeStep_frame (s : HostState) (armature : Obj) :
    (poseModeStep s armature).frame_current = s.frame_current := by
  unfold poseModeStep
  by_cases h : s.mode = "POSE" <;> simp [h]

theorem enterPoseMode_frame (l : List Obj) :
    ∀ s : HostState, (enterPoseMode l s).frame_current = s.frame_current := by
  induction l with
  | nil => intro s; rfl
  | cons a l ih =>
    intro s
    have h : enterPoseMode (a :: l) s = enterPoseMode l (poseModeStep s a) := rfl
    rw [h, ih, poseModeStep_frame]

theorem enterPoseMode_mode (l : List Obj) :
    ∀ s : HostState, (enterPoseMode l s).mode = if l.isEmpty then s.mode else "POSE" := by
  induction l with
  | nil => intro s; rfl
  | cons a l ih =>
    intro s
    have h : enterPoseMode (a :: l) s = enterPoseMode l (poseModeStep s a) := rfl
    rw [h, ih, poseModeStep_mode]
    by_cases hl : l.isEmpty <;> simp [hl]

theorem selectedBones_nil_of_armatures_nil (scene : Scene)
    (h : selectedArmatures scene = []) : selectedBonesWithArmature scene = [] := by
  unfold selectedBonesWithArmature
  rw [h]
  rfl

/-- The per-bone trace the export produces, as a function of the entity. -/
def boneTraceOf (props : BoneTracerProperties) (scene : Scene) (c : Camera)
    (p : PoseBone × Obj) : List Pixel :=
  (frameRange (effFrameStart props scene) (effFrameEnd props scene)).map
    (boneSample c props.bone_point p.1 p.2 (effResX props scene) (effResY props scene))

/-- The per-empty trace the export produces, as a function of the entity. -/
def emptyTraceOf (props : BoneTracerProperties) (scene : Scene) (c : Camera)
    (e : Obj) : List Pixel :=
  (frameRange (effFrameStart props scene) (effFrameEnd props scene)).map
    (emptySample c e (effResX props scene) (effResY props scene))

theorem first_check_false (scene : Scene)
    (hne : ((selectedBonesWithArmature scene).isEmpty
            && (selectedEmpties scene).isEmpty) = false) :
    ((selectedArmatures scene).isEmpty && (selectedEmpties scene).isEmpty) = false := by
  cases harm : (selectedArmatures scene).isEmpty with
  | false => simp
  | true =>
    have hb : selectedBonesWithArmature scene = [] :=
      selectedBones_nil_of_armatures_nil scene (List.isEmpty_iff.mp harm)
    simp only [hb, List.isEmpty_nil, Bool.true_and] at hne
    simp [hne]

theorem execute_success_result (props : BoneTracerProperties) (scene : Scene)
    (fs_ok : Bool) (s0 : HostState) (c : Camera) (hc : scene.camera = some c)
    (hne : ((selectedBonesWithArmature scene).isEmpty
            && (selectedEmpties scene).isEmpty) = false) :
    (execute props scene fs_ok s0).result
      = if fs_ok then .FINISHED else .CANCELLED "Failed to save file" := by
  unfold execute
  rw [hc]
  simp only [first_check_false scene hne, hne, Bool.false_eq_true, if_false]
  cases fs_ok <;> rfl

theorem execute_success_output (props : BoneTracerProperties) (scene : Scene)
    (fs_ok : Bool) (s0 : HostState) (c : Camera) (hc : scene.camera = some c)
    (hne : ((selectedBonesWithArmature scene).isEmpty
            && (selectedEmpties scene).isEmpty) = false) :
    (execute props scene fs_ok s0).output
      = if fs_ok then
          some ((selectedBonesWithArmature scene).map (boneTraceOf props scene c)
            ++ (selectedEmpties scene).map (emptyTraceOf props scene c))
        else none := by
  unfold execute
  rw [hc]
  simp only [first_check_false scene hne, hne, Bool.false_eq_true, if_false]
  cases fs_ok with
  | false => rfl
  | true =>
    simp only [if_true]
    congr 1
    rw [traceEntities_fst, traceEntities_fst]
    rfl

theorem execute_success_state (props : BoneTracerProperties) (scene : Scene)
    (fs_ok : Bool) (s0 : HostState) (c : Camera) (hc : scene.camera = some c)
    (hne : ((selectedBonesWithArmature scene).isEmpty
            && (selectedEmpties scene).isEmpty) = false) :
    (execute props scene fs_ok s0).state
      = ⟨s0.frame_current, s0.active,
          if (selectedArmatures scene).isEmpty then s0.mode else "POSE"⟩ := by
  unfold execute
  rw [hc]
  simp only [first_check_false scene hne, hne, Bool.false_eq_true, if_false]
  cases fs_ok with
  | false =>
    rw [if_neg (by simp)]
    rw [traceEntities_mode, traceEntities_mode, enterPoseMode_frame, enterPoseMode_mode]
  | true =>
    rw [if_pos rfl]
    rw [traceEntities_mode, traceEntities_mode, enterPoseMode_frame, enterPoseMode_mode]

/-- Inversion: a written output file means the camera was present, the
entity checks passed, and the file write succeeded. -/
theorem execute_output_some (props : BoneTracerProperties) (scene : Scene)
    (fs_ok : Bool) (s0 : HostState) (ts : List (List Pixel))
    (hout : (execute props scene fs_ok s0).output = some ts) :
    ∃ c, scene.camera = some c ∧
      ((selectedBonesWithArmature scene).isEmpty
        && (selectedEmpties scene).isEmpty) = false ∧
      fs_ok = true := by
  cases hcam : scene.camera with
  | none =>
    unfold execute at hout
    rw [hcam] at hout
    simp at hout
  | some c =>
    refine ⟨c, rfl, ?_⟩
    unfold execute at hout
    rw [hcam] at hout
    by_cases h1 : ((selectedArmatures scene).isEmpty && (selectedEmpties scene).isEmpty) = true
    · simp [h1] at hout
    · have h1f : ((selectedArmatures scene).isEmpty && (selectedEmpties scene).isEmpty) = false := by
        simpa using h1
      by_cases h2 : ((selectedBonesWithArmature scene).isEmpty
          && (selectedEmpties scene).isEmpty) = true
      · simp [h1f, h2] at hout
      · have h2f : ((selectedBonesWithArmature scene).isEmpty
            && (selectedEmpties scene).isEmpty) = false := by
          simpa using h2
        refine ⟨h2f, ?_⟩
        cases fs_ok with
        | false => simp [h1f, h2f] at hout
        | true => rfl

theorem frameRange_length (a b : Int) : (frameRange a b).length = (b + 1 - a).toNat := by
  unfold frameRange
  rw [List.length_map, List.length_range]

theorem frameRange_get (a b : Int) (i : ℕ) (hi : i < (frameRange a b).length) :
    (frameRange a b).get ⟨i, hi⟩ = a + i := by
  unfold frameRange at hi ⊢
  rw [List.get_eq_getElem, List.getElem_map, List.getElem_range]
  rfl

/- Concrete host fixtures used by counterexamples and witnesses. -/

/-- The identity world matrix. -/
def idMat : Mat4 := ⟨⟨1, 0, 0⟩, ⟨0, 1, 0⟩, ⟨0, 0, 1⟩, ⟨0, 0, 0⟩⟩

/-- A camera whose view map returns the x/y of the world position. -/
def testCam : Camera := ⟨fun _ v => v⟩

/-- A camera whose view map always lands outside the frustum. -/
def offCam : Camera := ⟨fun _ _ => ⟨-5, 7, 0⟩⟩

/-- An armature with no pose bones at all. -/
def armNoBones : Obj := ⟨"Armature", .ARMATURE, [], fun _ => idMat⟩

/-- A selected pose bone with constant head and tail. -/
def boneSel : PoseBone := ⟨true, fun _ => ⟨0, 0, 0⟩, fun _ => ⟨0, 1, 0⟩⟩

/-- An armature with one selected pose bone. -/
def armOneBone : Obj := ⟨"Armature", .ARMATURE, [boneSel], fun _ => idMat⟩

/-- An empty object translating along the x axis, one unit per frame. -/
def emptyObj : Obj := ⟨"Empty", .EMPTY, [], fun f => ⟨⟨1, 0, 0⟩, ⟨0, 1, 0⟩, ⟨0, 0, 1⟩, ⟨(f : ℚ), 0, 0⟩⟩⟩

/-- A scene whose only selection is an armature with no bones. -/
def sceneArmOnly : Scene := ⟨some testCam, 4, 4, 1, 2, [armNoBones]⟩

/-- A scene with nothing selected. -/
def sceneNoSel : Scene := ⟨some testCam, 4, 4, 1, 2, []⟩

/-- A scene selecting one empty object, with zero render resolution and an
out-of-frustum camera. -/
def sceneZeroRes : Scene := ⟨some offCam, 0, 0, 1, 1, [emptyObj]⟩

/-- A scene selecting one armature with one selected bone. -/
def scenePose : Scene := ⟨some testCam, 4, 4, 1, 1, [armOneBone]⟩

/-- A host state in object mode with no active object, at frame 10. -/
def st0 : HostState := ⟨10, none, "OBJECT"⟩

/-- The default operator configuration. -/
def defaultProps : BoneTracerProperties := ⟨1024, 1024, true, .HEAD, 1, 250, true⟩

/-- A host state in object mode with no active object, at frame 5. -/
def stE : HostState := ⟨5, none, "OBJECT"⟩

/-- A configuration that takes resolution and frame range from the
scene. -/
def zeroResProps : BoneTracerProperties := ⟨1024, 1024, true, .HEAD, 1, 250, true⟩

/-- C1: for every normalized camera-space coordinate and positive
resolution, `projectPx` computes `x` as the int-cast of `nx * w` and `y`
as the int-cast of `(1 - ny) * h`, where the cast truncates toward zero
(floor on nonnegative values, ceiling on negative ones, hence not the
floor toward negative infinity, as the `-1/4 * 2` conjuncts exhibit), and
no clamping to `[0,w) × [0,h)` is applied: `nx = -1` yields a negative
pixel and `nx = 1` yields pixel `w`. -/
theorem C1_projectPx_truncates_toward_zero_and_does_not_clamp (nx ny : ℚ) (w h : Int)
    (hw : 0 < w) (hh : 0 < h) :
    projectPx nx ny w h
        = (truncTowardZero (nx * (w : ℚ)), truncTowardZero ((1 - ny) * (h : ℚ))) ∧
    (projectPx (-1) ny w h).1 < 0 ∧
    (projectPx 1 ny w h).1 = w ∧
    truncTowardZero (-(1 : ℚ) / 4 * 2) = 0 ∧
    ⌊-(1 : ℚ) / 4 * 2⌋ = -1 := by
  refine ⟨?_, ?_, ?_, by norm_num [truncTowardZero],
    by rw [Int.floor_eq_iff] <;> norm_num⟩
  · unfold projectPx truncTowardZero
    rw [pyInt_eq, pyInt_eq]
  · show pyInt ((-1) * (w : ℚ)) < 0
    have hcast : ((-1 : ℚ)) * (w : ℚ) = ((-w : Int) : ℚ) := by push_cast; ring
    rw [hcast, pyInt_intCast]
    omega
  · show pyInt (1 * (w : ℚ)) = w
    rw [one_mul, pyInt_intCast]

/-- Witness for C1 at `nx = 1/3`, `ny = 1/3`, `w = h = 4`. -/
theorem C1_witness :
    projectPx (1/3) (1/3) 4 4
        = (truncTowardZero ((1/3 : ℚ) * ((4 : Int) : ℚ)),
           truncTowardZero ((1 - (1/3 : ℚ)) * ((4 : Int) : ℚ))) ∧
    (projectPx (-1) (1/3) 4 4).1 < 0 ∧
    (projectPx 1 (1/3) 4 4).1 = 4 ∧
    truncTowardZero (-(1 : ℚ) / 4 * 2) = 0 ∧
    ⌊-(1 : ℚ) / 4 * 2⌋ = -1 :=
  C1_projectPx_truncates_toward_zero_and_does_not_clamp (1/3) (1/3) 4 4
    (by norm_num) (by norm_num)

/-- C3 counterexample: at `nx = 0`, `ny = 0` (both in `[0,1)`) with the
valid resolution 800 × 600, the projected y coordinate is 600, which is
not in `[0, 600)`: the claim fails at `ny = 0`. -/
theorem C3_counterexample_ny_zero :
    (0 : ℚ) ≤ 0 ∧ (0 : ℚ) < 1 ∧ (0 : Int) < 800 ∧ (0 : Int) < 600 ∧
    projectPx 0 0 800 600 = (0, 600) ∧ ¬((projectPx 0 0 800 600).2 < 600) := by
  have hp : projectPx 0 0 800 600 = (0, 600) := by norm_num [projectPx, pyInt]
  refine ⟨le_refl 0, one_pos, by norm_num, by norm_num, hp, ?_⟩
  rw [hp]
  omega

/-- C3 (amended): for positive resolution and `nx ∈ [0,1)`, `ny ∈ (0,1]`
(the claim said `ny ∈ [0,1)`; at `ny = 0` the output is exactly `h`, one
out of range), `projectPx` yields `x ∈ [0,w)` and `y ∈ [0,h)`. -/
theorem C3_projectPx_in_bounds_amended (nx ny : ℚ) (w h : Int)
    (hw : 0 < w) (hh : 0 < h)
    (hnx0 : 0 ≤ nx) (hnx1 : nx < 1) (hny0 : 0 < ny) (hny1 : ny ≤ 1) :
    0 ≤ (projectPx nx ny w h).1 ∧ (projectPx nx ny w h).1 < w ∧
    0 ≤ (projectPx nx ny w h).2 ∧ (projectPx nx ny w h).2 < h := by
  have hwq : (0 : ℚ) < (w : ℚ) := by exact_mod_cast hw
  have hhq : (0 : ℚ) < (h : ℚ) := by exact_mod_cast hh
  have hx0 : 0 ≤ nx * (w : ℚ) := mul_nonneg hnx0 hwq.le
  have hx1 : nx * (w : ℚ) < (w : ℚ) := by
    calc nx * (w : ℚ) < 1 * (w : ℚ) := mul_lt_mul_of_pos_right hnx1 hwq
    _ = (w : ℚ) := one_mul _
  have hy0 : 0 ≤ (1 - ny) * (h : ℚ) := mul_nonneg (by linarith) hhq.le
  have hy1 : (1 - ny) * (h : ℚ) < (h : ℚ) := by
    calc (1 - ny) * (h : ℚ) < 1 * (h : ℚ) := mul_lt_mul_of_pos_right (by linarith) hhq
    _ = (h : ℚ) := one_mul _
  have e1 : (projectPx nx ny w h).1 = ⌊nx * (w : ℚ)⌋ := by
    show pyInt _ = _
    rw [pyInt_eq, if_pos hx0]
  have e2 : (projectPx nx ny w h).2 = ⌊(1 - ny) * (h : ℚ)⌋ := by
    show pyInt _ = _
    rw [pyInt_eq, if_pos hy0]
  refine ⟨?_, ?_, ?_, ?_⟩
  · rw [e1]; exact Int.floor_nonneg.mpr hx0
  · rw [e1]; exact Int.floor_lt.mpr hx1
  · rw [e2]; exact Int.floor_nonneg.mpr hy0
  · rw [e2]; exact Int.floor_lt.mpr hy1

/-- Witness for C3 at `nx = ny = 1/2`, `w = h = 2`. -/
theorem C3_witness :
    0 ≤ (projectPx (1/2) (1/2) 2 2).1 ∧ (projectPx (1/2) (1/2) 2 2).1 < 2 ∧
    0 ≤ (projectPx (1/2) (1/2) 2 2).2 ∧ (projectPx (1/2) (1/2) 2 2).2 < 2 :=
  C3_projectPx_in_bounds_amended (1/2) (1/2) 2 2 (by norm_num) (by norm_num)
    (by norm_num) (by norm_num) (by norm_num) (by norm_num)

/-- C2: evaluation of the code at the failing input. With one selected
armature that has no selected bones, no empties, and no active object,
the export exits at the no-bones check (source line 138) after the
armature loop made the armature active (line 127): the call returns
CANCELLED with the armature still active, so the active object does not
equal its value before the call. The restore at lines 203-206 runs only
for exits inside the try block entered at line 146. -/
theorem C2_active_object_not_restored_on_no_bones_exit :
    (execute defaultProps sceneArmOnly true st0).result
      = .CANCELLED "No bones selected and no empty objects selected. Please select bones in pose mode on armatures or select empty objects." ∧
    st0.active = none ∧
    (execute defaultProps sceneArmOnly true st0).state.active = some armNoBones ∧
    (execute defaultProps sceneArmOnly true st0).state.active ≠ st0.active := by
  refine ⟨rfl, rfl, rfl, ?_⟩
  rw [show (execute defaultProps sceneArmOnly true st0).state.active = some armNoBones from rfl]
  simp [st0]

/-- C6 counterexample: in `sceneArmOnly` the tracked-entity set is empty
(no selected bones, no empties), the export aborts, yet side effects
remain: the editor mode changed from OBJECT to POSE and the active object
changed from none to the armature, contradicting the claimed absence of
mutation of the active object and mode. -/
theorem C6_counterexample_armature_mutation_on_empty_entity_set :
    selectedBonesWithArmature sceneArmOnly = [] ∧
    selectedEmpties sceneArmOnly = [] ∧
    st0.mode = "OBJECT" ∧
    (execute defaultProps sceneArmOnly true st0).state.mode = "POSE" ∧
    st0.active = none ∧
    (execute defaultProps sceneArmOnly true st0).state.active = some armNoBones := by
  exact ⟨rfl, rfl, rfl, rfl, rfl, rfl⟩

/-- C6 (amended): with an active camera, whenever the tracked-entity set
is empty the export aborts with an error (CANCELLED), performs no frame
stepping (the current frame is unchanged) and writes no output file; it
is entirely free of side effects when no armature is selected, while a
selected armature without selected bones leaves the active object and
mode mutated. -/
theorem C6_no_entities_aborts_amended (props : BoneTracerProperties) (scene : Scene)
    (fs_ok : Bool) (s0 : HostState) (c : Camera)
    (hc : scene.camera = some c)
    (hb : selectedBonesWithArmature scene = [])
    (he : selectedEmpties scene = []) :
    (∃ msg, (execute props scene fs_ok s0).result = .CANCELLED msg) ∧
    (execute props scene fs_ok s0).output = none ∧
    (execute props scene fs_ok s0).state.frame_current = s0.frame_current ∧
    (selectedArmatures scene = [] → (execute props scene fs_ok s0).state = s0) := by
  unfold execute
  rw [hc]
  by_cases h117 : ((selectedArmatures scene).isEmpty && (selectedEmpties scene).isEmpty) = true
  · simp [h117]
  · have h117f : ((selectedArmatures scene).isEmpty
        && (selectedEmpties scene).isEmpty) = false := by
      simpa using h117
    have h136 : ((selectedBonesWithArmature scene).isEmpty
        && (selectedEmpties scene).isEmpty) = true := by
      simp [hb, he]
    have harm : selectedArmatures scene ≠ [] := by
      intro hnil
      exact h117 (by simp [hnil, he])
    simp [h117f, h136, enterPoseMode_frame, harm]

/-- Witness for C6 on the scene with nothing selected. -/
theorem C6_witness :
    (∃ msg, (execute defaultProps sceneNoSel true st0).result = .CANCELLED msg) ∧
    (execute defaultProps sceneNoSel true st0).output = none ∧
    (execute defaultProps sceneNoSel true st0).state.frame_current = st0.frame_current ∧
    (selectedArmatures sceneNoSel = [] → (execute defaultProps sceneNoSel true st0).state = st0) :=
  C6_no_entities_aborts_amended defaultProps sceneNoSel true st0 testCam rfl rfl rfl

/-- C7 counterexample: with a non-positive resolution component (render
resolution 0 × 0) and an out-of-frustum camera, the export reports no
error at all: it returns FINISHED and writes the pixel (0, 0), so no
InvalidInput error is reported for the invalid resolution input. -/
theorem C7_counterexample_nonpositive_resolution_no_error :
    effResX zeroResProps sceneZeroRes = 0 ∧
    effResY zeroResProps sceneZeroRes = 0 ∧
    (execute zeroResProps sceneZeroRes true stE).result = .FINISHED ∧
    (execute zeroResProps sceneZeroRes true stE).output = some [[(0, 0)]] := by
  refine ⟨rfl, rfl, rfl, ?_⟩
  simp [execute, sceneZeroRes, zeroResProps, stE, effResX, effResY, effFrameStart,
    effFrameEnd, selectedArmatures, selectedEmpties, selectedBonesWithArmature,
    enterPoseMode, frameRange, traceEntities, traceOverFrames, emptySample,
    projectPx, pyInt, offCam, emptyObj, Mat4.translation, List.range_succ]

/-- C7 (amended): the projection step never reports an error. With an
active camera, at least one tracked entity and a successful file write,
the export returns FINISHED for every scene: out-of-frustum normalized
coordinates produce off-screen pixels rather than an exception, and no
input validation (in particular no InvalidInput report for non-positive
resolution components) exists anywhere on the path. -/
theorem C7_projector_never_reports_error_amended (props : BoneTracerProperties)
    (scene : Scene) (s0 : HostState) (c : Camera)
    (hc : scene.camera = some c)
    (hne : ((selectedBonesWithArmature scene).isEmpty
        && (selectedEmpties scene).isEmpty) = false) :
    (execute props scene true s0).result = .FINISHED := by
  rw [execute_success_result props scene true s0 c hc hne]
  rfl

/-- Witness for C7 on the zero-resolution, off-frustum scene. -/
theorem C7_witness :
    (execute zeroResProps sceneZeroRes true stE).result = .FINISHED :=
  C7_projector_never_reports_error_amended zeroResProps sceneZeroRes stE offCam rfl rfl

/-- C4: for every successful export (an output file was written) whose
effective frame range is `a ≤ b`, every trace in the output has exactly
`b - a + 1` pixels, one per frame of the range, and the frame list is
ascending: its i-th element is `a + i`. -/
theorem C4_trace_length_and_frame_order (props : BoneTracerProperties) (scene : Scene)
    (fs_ok : Bool) (s0 : HostState) (ts : List (List Pixel)) (a b : Int)
    (ha : effFrameStart props scene = a) (hb : effFrameEnd props scene = b)
    (hout : (execute props scene fs_ok s0).output = some ts)
    (hfr : a ≤ b) :
    (∀ t ∈ ts, (t.length : Int) = b - a + 1 ∧
      ∃ sample : Int → Pixel, t = (frameRange a b).map sample) ∧
    (∀ (i : ℕ) (hi : i < (frameRange a b).length),
      (frameRange a b).get ⟨i, hi⟩ = a + i) := by
  obtain ⟨c, hc, hne, hfs⟩ := execute_output_some props scene fs_ok s0 ts hout
  subst hfs
  rw [execute_success_output props scene true s0 c hc hne] at hout
  simp only [if_true] at hout
  have hts : ts = (selectedBonesWithArmature scene).map (boneTraceOf props scene c)
      ++ (selectedEmpties scene).map (emptyTraceOf props scene c) :=
    (Option.some.inj hout).symm
  refine ⟨?_, fun i hi => frameRange_get a b i hi⟩
  intro t ht
  rw [hts] at ht
  rcases List.mem_append.mp ht with hmem | hmem
  · rcases List.mem_map.mp hmem with ⟨p, _, rfl⟩
    refine ⟨?_, boneSample c props.bone_point p.1 p.2 (effResX props scene) (effResY props scene), ?_⟩
    · unfold boneTraceOf
      rw [ha, hb, List.length_map, frameRange_length]
      omega
    · unfold boneTraceOf
      rw [ha, hb]
  · rcases List.mem_map.mp hmem with ⟨e, _, rfl⟩
    refine ⟨?_, emptySample c e (effResX props scene) (effResY props scene), ?_⟩
    · unfold emptyTraceOf
      rw [ha, hb, List.length_map, frameRange_length]
      omega
    · unfold emptyTraceOf
      rw [ha, hb]

/-- Witness for C4 on the one-empty scene, frame range 1..1. -/
theorem C4_witness :
    (∀ t ∈ [[((0 : Int), (0 : Int))]], (t.length : Int) = 1 - 1 + 1 ∧
      ∃ sample : Int → Pixel, t = (frameRange 1 1).map sample) ∧
    (∀ (i : ℕ) (hi : i < (frameRange 1 1).length),
      (frameRange 1 1).get ⟨i, hi⟩ = 1 + i) :=
  C4_trace_length_and_frame_order zeroResProps sceneZeroRes true stE [[(0, 0)]] 1 1 rfl rfl
    (by simp [execute, sceneZeroRes, zeroResProps, stE, effResX, effResY, effFrameStart,
      effFrameEnd, selectedArmatures, selectedEmpties, selectedBonesWithArmature,
      enterPoseMode, frameRange, traceEntities, traceOverFrames, emptySample,
      projectPx, pyInt, offCam, emptyObj, Mat4.translation, List.range_succ])
    (by norm_num)

/-- C5: every successful export writes exactly one trace per tracked
entity: the trace set is the bone traces (selected armatures in
selection order, each armature's selected bones in armature order)
followed by the empty-object traces (selection order), and its length is
the entity count, a formula free of the frame range. -/
theorem C5_one_trace_per_entity_in_order (props : BoneTracerProperties) (scene : Scene)
    (fs_ok : Bool) (s0 : HostState) (ts : List (List Pixel)) (c : Camera)
    (hc : scene.camera = some c)
    (hout : (execute props scene fs_ok s0).output = some ts) :
    ts = (selectedBonesWithArmature scene).map (boneTraceOf props scene c)
        ++ (selectedEmpties scene).map (emptyTraceOf props scene c) ∧
    ts.length = (selectedBonesWithArmature scene).length + (selectedEmpties scene).length := by
  obtain ⟨c2, hc2, hne, hfs⟩ := execute_output_some props scene fs_ok s0 ts hout
  subst hfs
  rw [hc] at hc2
  obtain rfl : c = c2 := Option.some.inj hc2
  rw [execute_success_output props scene true s0 c hc hne] at hout
  simp only [if_true] at hout
  have hts : ts = (selectedBonesWithArmature scene).map (boneTraceOf props scene c)
      ++ (selectedEmpties scene).map (emptyTraceOf props scene c) :=
    (Option.some.inj hout).symm
  refine ⟨hts, ?_⟩
  rw [hts]
  simp

/-- Witness for C5 on the one-empty scene. -/
theorem C5_witness :
    ([[((0 : Int), (0 : Int))]] : List (List Pixel))
        = (selectedBonesWithArmature sceneZeroRes).map (boneTraceOf zeroResProps sceneZeroRes offCam)
          ++ (selectedEmpties sceneZeroRes).map (emptyTraceOf zeroResProps sceneZeroRes offCam) ∧
    ([[((0 : Int), (0 : Int))]] : List (List Pixel)).length
        = (selectedBonesWithArmature sceneZeroRes).length + (selectedEmpties sceneZeroRes).length :=
  C5_one_trace_per_entity_in_order zeroResProps sceneZeroRes true stE [[(0, 0)]] offCam rfl
    (by simp [execute, sceneZeroRes, zeroResProps, stE, effResX, effResY, effFrameStart,
      effFrameEnd, selectedArmatures, selectedEmpties, selectedBonesWithArmature,
      enterPoseMode, frameRange, traceEntities, traceOverFrames, emptySample,
      projectPx, pyInt, offCam, emptyObj, Mat4.translation, List.range_succ])

/-- C8: on every successful export the bone part of the trace set (its
first `len(bones)` traces) is, for each selected bone in order and each
frame of the range, the projection of the camera view of the owning
armature's world matrix applied to the point the export-wide
`bone_point` option selects: the head for HEAD, the tail for TAIL, and
the midpoint `(head + tail) / 2` for CENTER — the option acts before the
world transform. -/
theorem C8_bone_point_option_before_world_transform (props : BoneTracerProperties)
    (scene : Scene) (fs_ok : Bool) (s0 : HostState) (ts : List (List Pixel)) (c : Camera)
    (hc : scene.camera = some c)
    (hout : (execute props scene fs_ok s0).output = some ts) :
    ts.take (selectedBonesWithArmature scene).length
      = (selectedBonesWithArmature scene).map (fun p =>
          (frameRange (effFrameStart props scene) (effFrameEnd props scene)).map (fun frame =>
            let point := match props.bone_point with
              | .HEAD => p.1.head frame
              | .TAIL => p.1.tail frame
              | .CENTER => (p.1.head frame + p.1.tail frame) / (2 : ℚ)
            let world_pos := (p.2.matrix_world frame).apply point
            let cam_pos := c.view frame world_pos
            projectPx cam_pos.x cam_pos.y (effResX props scene) (effResY props scene))) := by
  obtain ⟨c2, hc2, hne, hfs⟩ := execute_output_some props scene fs_ok s0 ts hout
  subst hfs
  rw [hc] at hc2
  obtain rfl : c = c2 := Option.some.inj hc2
  rw [execute_success_output props scene true s0 c hc hne] at hout
  simp only [if_true] at hout
  have hts : ts = (selectedBonesWithArmature scene).map (boneTraceOf props scene c)
      ++ (selectedEmpties scene).map (emptyTraceOf props scene c) :=
    (Option.some.inj hout).symm
  rw [hts, List.take_left' (by simp)]
  rfl

/-- Witness for C8 on the one-bone scene. -/
theorem C8_witness :
    ([[((0 : Int), (4 : Int))]] : List (List Pixel)).take
        (selectedBonesWithArmature scenePose).length
      = (selectedBonesWithArmature scenePose).map (fun p =>
          (frameRange (effFrameStart zeroResProps scenePose) (effFrameEnd zeroResProps scenePose)).map
            (fun frame =>
              let point := match zeroResProps.bone_point with
                | .HEAD => p.1.head frame
                | .TAIL => p.1.tail frame
                | .CENTER => (p.1.head frame + p.1.tail frame) / (2 : ℚ)
              let world_pos := (p.2.matrix_world frame).apply point
              let cam_pos := testCam.view frame world_pos
              projectPx cam_pos.x cam_pos.y (effResX zeroResProps scenePose)
                (effResY zeroResProps scenePose))) :=
  C8_bone_point_option_before_world_transform zeroResProps scenePose true st0
    [[(0, 4)]] testCam rfl
    (by simp [execute, scenePose, zeroResProps, st0, effResX, effResY, effFrameStart,
      effFrameEnd, selectedArmatures, selectedEmpties, selectedBonesWithArmature,
      enterPoseMode, frameRange, traceEntities, traceOverFrames, boneSample, bonePos,
      projectPx, pyInt, testCam, armOneBone, boneSel, idMat, Mat4.apply, Vec3.dot,
      List.range_succ])

/-- C9: two runs that differ only in the `bone_point` option produce
identical empty-object traces: the part of the output after the first
`len(bones)` traces, the returned status, and the final host state all
agree between the two runs. -/
theorem C9_empty_traces_independent_of_bone_point (props : BoneTracerProperties)
    (scene : Scene) (fs_ok : Bool) (s0 : HostState) (o1 o2 : BonePointOpt) :
    ((execute { props with bone_point := o1 } scene fs_ok s0).output.map
        (fun ts => ts.drop (selectedBonesWithArmature scene).length))
      = ((execute { props with bone_point := o2 } scene fs_ok s0).output.map
        (fun ts => ts.drop (selectedBonesWithArmature scene).length)) ∧
    (execute { props with bone_point := o1 } scene fs_ok s0).result
      = (execute { props with bone_point := o2 } scene fs_ok s0).result ∧
    (execute { props with bone_point := o1 } scene fs_ok s0).state
      = (execute { props with bone_point := o2 } scene fs_ok s0).state := by
  cases hcam : scene.camera with
  | none =>
    unfold execute
    rw [hcam]
    exact ⟨rfl, rfl, rfl⟩
  | some c =>
    by_cases h2 : ((selectedBonesWithArmature scene).isEmpty
        && (selectedEmpties scene).isEmpty) = true
    · unfold execute
      rw [hcam]
      by_cases h1 : ((selectedArmatures scene).isEmpty
          && (selectedEmpties scene).isEmpty) = true
      · simp [h1]
      · have h1f : ((selectedArmatures scene).isEmpty
            && (selectedEmpties scene).isEmpty) = false := by simpa using h1
        simp [h1f, h2]
    · have h2f : ((selectedBonesWithArmature scene).isEmpty
          && (selectedEmpties scene).isEmpty) = false := by simpa using h2
      have ho1 := execute_success_output { props with bone_point := o1 } scene fs_ok s0 c hcam h2f
      have ho2 := execute_success_output { props with bone_point := o2 } scene fs_ok s0 c hcam h2f
      have hr1 := execute_success_result { props with bone_point := o1 } scene fs_ok s0 c hcam h2f
      have hr2 := execute_success_result { props with bone_point := o2 } scene fs_ok s0 c hcam h2f
      have hs1 := execute_success_state { props with bone_point := o1 } scene fs_ok s0 c hcam h2f
      have hs2 := execute_success_state { props with bone_point := o2 } scene fs_ok s0 c hcam h2f
      refine ⟨?_, by rw [hr1, hr2], by rw [hs1, hs2]⟩
      rw [ho1, ho2]
      cases fs_ok with
      | false => rfl
      | true =>
        have e1 : ((selectedBonesWithArmature scene).map
            (boneTraceOf { props with bone_point := o1 } scene c)).length
            = (selectedBonesWithArmature scene).length := by simp
        have e2 : ((selectedBonesWithArmature scene).map
            (boneTraceOf { props with bone_point := o2 } scene c)).length
            = (selectedBonesWithArmature scene).length := by simp
        simp only [if_true, Option.map_some', List.drop_left' e1, List.drop_left' e2]
        rfl

/-- C10: whenever the camera is present and at least one armature is
selected, the editor mode after the call is POSE on every exit path: the
saved original mode is never restored. The concrete conjuncts show a run
whose mode changed from OBJECT to POSE even though the current frame and
the active object were restored. -/
theorem C10_pose_mode_never_restored (props : BoneTracerProperties) (scene : Scene)
    (fs_ok : Bool) (s0 : HostState) (c : Camera)
    (hc : scene.camera = some c)
    (ha : selectedArmatures scene ≠ []) :
    (execute props scene fs_ok s0).state.mode = "POSE" ∧
    ((execute defaultProps scenePose true st0).state.mode = "POSE" ∧
     st0.mode = "OBJECT" ∧
     (execute defaultProps scenePose true st0).state.frame_current = st0.frame_current ∧
     (execute defaultProps scenePose true st0).state.active = st0.active) := by
  refine ⟨?_, rfl, rfl, rfl, rfl⟩
  have haf : (selectedArmatures scene).isEmpty = false := by simp [ha]
  by_cases h136 : ((selectedBonesWithArmature scene).isEmpty
      && (selectedEmpties scene).isEmpty) = true
  · unfold execute
    rw [hc]
    have h117f : ((selectedArmatures scene).isEmpty
        && (selectedEmpties scene).isEmpty) = false := by
      simp [haf]
    simp [h117f, h136, enterPoseMode_mode, haf]
  · have h2f : ((selectedBonesWithArmature scene).isEmpty
        && (selectedEmpties scene).isEmpty) = false := by simpa using h136
    rw [execute_success_state props scene fs_ok s0 c hc h2f]
    simp [haf]

/-- Witness for C10 on the one-bone scene. -/
theorem C10_witness :
    (execute defaultProps scenePose true st0).state.mode = "POSE" ∧
    ((execute defaultProps scenePose true st0).state.mode = "POSE" ∧
     st0.mode = "OBJECT" ∧
     (execute defaultProps scenePose true st0).state.frame_current = st0.frame_current ∧
     (execute defaultProps scenePose true st0).state.active = st0.active) :=
  C10_pose_mode_never_restored defaultProps scenePose true st0 testCam rfl
    (by simp [show selectedArmatures scenePose = [armOneBone] from rfl])

end BoneTracer
